import Mathlib

/-!
Verification of the core conversion logic of the friesen-enrollment-conversion
repository (src/csv_converter.py and src/converter.py): the shrink-to-fit text
drawing helper, the gender overprint fragments, IBAN reformatting, the column
rename step, the row-to-page conversion loop, the decode failure path and the
name-line composition.  Rendered widths (reportlab's `stringWidth`) are
abstracted as rational-valued measure functions; canvas state is modelled
explicitly.
-/

set_option maxHeartbeats 1000000

/-- A single `drawString` operation recorded on the canvas model: the position,
the text drawn, and the canvas font state (name and size) in effect when the
text was drawn.  Models the fact that reportlab's `drawString` renders with the
font most recently installed by `setFont`. -/
structure DrawOp where
  x : ℚ
  y : ℚ
  text : String
  fontName : String
  fontSize : ℕ
deriving DecidableEq, Repr

/-- Graphics state of a reportlab canvas, restricted to what
`draw_text_in_box` touches: the current font (name and size) and the list of
text-drawing operations issued so far. -/
structure GCanvas where
  fontName : String
  fontSize : ℕ
  ops : List DrawOp
deriving DecidableEq, Repr

/-- Model of `c.setFont(font_name, font_size)`. -/
def GCanvas.setFont (c : GCanvas) (fn : String) (s : ℕ) : GCanvas :=
  { c with fontName := fn, fontSize := s }

/-- Model of `c.drawString(x, y, text)`: records the operation together with
the current font state of the canvas. -/
def GCanvas.drawString (c : GCanvas) (x y : ℚ) (t : String) : GCanvas :=
  { c with
    ops := c.ops ++ [{ x := x, y := y, text := t, fontName := c.fontName, fontSize := c.fontSize }] }

/-- The `while font_size > 6` loop of `draw_text_in_box`
(src/csv_converter.py lines 138-143): at each size it installs the font via
`setFont`, measures the text (`w s` abstracts
`c.stringWidth(text, font_name, s)`), stops when the text fits the available
width, and otherwise decrements the size by one.  The loop body only runs
while the size exceeds 6. -/
def fitLoop (w : ℕ → ℚ) (avail : ℚ) (fn : String) : ℕ → GCanvas → GCanvas
  | 0, c => c
  | fs + 1, c =>
    if 6 < fs + 1 then
      let c1 := c.setFont fn (fs + 1)
      if w (fs + 1) ≤ avail then c1
      else fitLoop w avail fn fs c1
    else c

/-- Model of `draw_text_in_box(text, x, y, box_width, font_name,
base_font_size, padding)` (src/csv_converter.py lines 116-146).
`sw text fn s` abstracts `c.stringWidth(text, fn, s)`.  An empty (falsy) text
returns immediately; otherwise the available width is
`box_width - 2 * padding`, the fit loop reduces the font size, and the text is
drawn at `x + padding` with whatever font the canvas then holds. -/
def draw_text_in_box (sw : String → String → ℕ → ℚ) (text : String)
    (x y box_width : ℚ) (font_name : String) (base_font_size : ℕ)
    (padding : ℚ) (c : GCanvas) : GCanvas :=
  if text = "" then c
  else
    let available_width := box_width - 2 * padding
    let c1 := fitLoop (sw text font_name) available_width font_name base_font_size c
    c1.drawString (x + padding) y text

/-- Unfolding equation of `fitLoop` at a successor size. -/
theorem fitLoop_succ (w : ℕ → ℚ) (avail : ℚ) (fn : String) (fs : ℕ) (c : GCanvas) :
    fitLoop w avail fn (fs + 1) c =
      if 6 < fs + 1 then
        if w (fs + 1) ≤ avail then c.setFont fn (fs + 1)
        else fitLoop w avail fn fs (c.setFont fn (fs + 1))
      else c := rfl

/-- Installing a font twice keeps only the second call. -/
theorem GCanvas.setFont_setFont (c : GCanvas) (fn fn' : String) (a b : ℕ) :
    (c.setFont fn a).setFont fn' b = c.setFont fn' b := rfl

/-- Characterisation of the fit loop for starting sizes of at least 7: the
canvas ends with font `fn` installed at a size `d` that is the largest size in
`[7, fs]` at which the text fits, or 7 when no such size fits (the loop
variable reaches the floor 6, but `setFont` was last called with 7). -/
theorem fitLoop_spec (w : ℕ → ℚ) (avail : ℚ) (fn : String) :
    ∀ fs : ℕ, 7 ≤ fs → ∀ c : GCanvas,
      ∃ d : ℕ, fitLoop w avail fn fs c = c.setFont fn d ∧
        7 ≤ d ∧ d ≤ fs ∧ (w d ≤ avail ∨ d = 7) ∧
        ∀ s : ℕ, d < s → s ≤ fs → avail < w s := by
  intro fs h
  induction fs, h using Nat.le_induction with
  | base =>
    intro c
    refine ⟨7, ?_, le_refl 7, le_refl 7, ?_, by omega⟩
    · show fitLoop w avail fn (6 + 1) c = c.setFont fn 7
      rw [fitLoop_succ]
      by_cases hw : w 7 ≤ avail
      · simp [hw]
      · simp [hw]
        rfl
    · by_cases hw : w 7 ≤ avail
      · exact Or.inl hw
      · exact Or.inr rfl
  | succ fs hfs ih =>
    intro c
    rw [fitLoop_succ, if_pos (by omega : 6 < fs + 1)]
    by_cases hw : w (fs + 1) ≤ avail
    · rw [if_pos hw]
      exact ⟨fs + 1, rfl, by omega, le_refl _, Or.inl hw, by omega⟩
    · rw [if_neg hw]
      obtain ⟨d, hd, h7, hle, hfit, hmax⟩ := ih (c.setFont fn (fs + 1))
      refine ⟨d, ?_, h7, by omega, hfit, ?_⟩
      · rw [hd, GCanvas.setFont_setFont]
      · intro s hds hsle
        rcases Nat.lt_or_ge s (fs + 1) with hs | hs
        · exact hmax s hds (by omega)
        · have : s = fs + 1 := by omega
          subst this
          exact lt_of_not_le hw

/-- C9 (confirmed): for an empty text, `draw_text_in_box` is a no-op: it
returns immediately (the `if not text: return` guard), draws nothing, and
leaves the canvas graphics state - current font name, font size and the list
of drawing operations - unchanged. -/
theorem draw_text_in_box_empty (sw : String → String → ℕ → ℚ)
    (x y box_width : ℚ) (font_name : String) (base_font_size : ℕ)
    (padding : ℚ) (c : GCanvas) :
    draw_text_in_box sw "" x y box_width font_name base_font_size padding c = c := rfl

/-- C1 (amended): for a non-empty text and a starting size of at least 7
(the helper is always invoked with the default 12), `draw_text_in_box` draws
the text exactly once, at `x + padding`, in the requested font, at size `d`
where `d` is the unique largest integer in `[7, base]` whose measured width is
at most `box_width - 2 * padding`, or `d = 7` when no size in that range fits:
the loop variable does reach the 6pt floor, but the canvas font was last
installed by the measurement at 7pt, so the text is drawn at 7pt, not 6pt. -/
theorem draw_text_in_box_size (sw : String → String → ℕ → ℚ) (text : String)
    (x y box_width : ℚ) (font_name : String) (base : ℕ) (padding : ℚ)
    (c : GCanvas) (htext : text ≠ "") (hbase : 7 ≤ base) :
    ∃ d : ℕ,
      (draw_text_in_box sw text x y box_width font_name base padding c).ops =
        c.ops ++ [{ x := x + padding, y := y, text := text,
                    fontName := font_name, fontSize := d }] ∧
      7 ≤ d ∧ d ≤ base ∧
      (sw text font_name d ≤ box_width - 2 * padding ∨ d = 7) ∧
      ∀ s : ℕ, d < s → s ≤ base → box_width - 2 * padding < sw text font_name s := by
  obtain ⟨d, hd, h7, hle, hfit, hmax⟩ :=
    fitLoop_spec (sw text font_name) (box_width - 2 * padding) font_name base hbase c
  refine ⟨d, ?_, h7, hle, hfit, hmax⟩
  have key : draw_text_in_box sw text x y box_width font_name base padding c =
      (fitLoop (sw text font_name) (box_width - 2 * padding) font_name base c).drawString
        (x + padding) y text := by
    unfold draw_text_in_box
    rw [if_neg htext]
  rw [key, hd]
  rfl

/-- C1 witness: with the measure `w s = s`, text "ab", box width 30 and
padding 5 (available width 20), starting at 12, the hypotheses of
`draw_text_in_box_size` hold and the characterised drawing happens. -/
theorem draw_text_in_box_size_witness :
    ∃ d : ℕ,
      (draw_text_in_box (fun _ _ n => (n : ℚ)) "ab" 0 0 30 "Helvetica" 12 5
          { fontName := "Helvetica", fontSize := 12, ops := [] }).ops =
        ({ fontName := "Helvetica", fontSize := 12, ops := [] } : GCanvas).ops ++
          [{ x := 0 + 5, y := 0, text := "ab", fontName := "Helvetica", fontSize := d }] ∧
      7 ≤ d ∧ d ≤ 12 ∧
      ((fun (_ : String) (_ : String) (n : ℕ) => (n : ℚ)) "ab" "Helvetica" d ≤ 30 - 2 * 5 ∨ d = 7) ∧
      ∀ s : ℕ, d < s → s ≤ 12 →
        30 - 2 * 5 < ((fun (_ : String) (_ : String) (n : ℕ) => (n : ℚ)) "ab" "Helvetica" s) :=
  draw_text_in_box_size (fun _ _ n => (n : ℚ)) "ab" 0 0 30 "Helvetica" 12 5
    { fontName := "Helvetica", fontSize := 12, ops := [] } (by decide) (by decide)

/-- C1 counterexample: with measure `w s = s`, box width 12 and padding 5 the
available width is 2, so no size in `[6, 12]` fits (first conjunct); the claim
then requires the text to be drawn at exactly 6pt, but the recorded draw
operation carries font size 7: `setFont` is never called with 6. -/
theorem draw_text_in_box_floor_cex :
    (∀ s : ℕ, s ≤ 12 → 6 ≤ s → ¬((s : ℚ) ≤ 12 - 2 * 5)) ∧
    (draw_text_in_box (fun _ _ n => (n : ℚ)) "ab" 0 0 12 "Helvetica" 12 5
        { fontName := "Helvetica", fontSize := 12, ops := [] }).ops =
      [{ x := 0 + 5, y := 0, text := "ab", fontName := "Helvetica", fontSize := 7 }] := by
  have havail : (12 - 2 * 5 : ℚ) = 2 := by norm_num
  constructor
  · intro s _ h6 hle
    rw [havail] at hle
    have h6q : (6 : ℚ) ≤ (s : ℚ) := by exact_mod_cast h6
    linarith
  · obtain ⟨d, hd, h7, hle, hfit, hmax⟩ :=
      fitLoop_spec ((fun (_ : String) (_ : String) (n : ℕ) => (n : ℚ)) "ab" "Helvetica")
        (12 - 2 * 5) "Helvetica" 12 (by norm_num) ⟨"Helvetica", 12, []⟩
    have hd7 : d = 7 := by
      rcases hfit with hw | h
      · exfalso
        rw [havail] at hw
        have h7q : (7 : ℚ) ≤ (d : ℚ) := by exact_mod_cast h7
        simp only at hw
        linarith
      · exact h
    subst hd7
    have key : draw_text_in_box (fun _ _ n => (n : ℚ)) "ab" 0 0 12 "Helvetica" 12 5
        { fontName := "Helvetica", fontSize := 12, ops := [] } =
        (fitLoop ((fun (_ : String) (_ : String) (n : ℕ) => (n : ℚ)) "ab" "Helvetica")
          (12 - 2 * 5) "Helvetica" 12 ⟨"Helvetica", 12, []⟩).drawString (0 + 5) 0 "ab" := by
      unfold draw_text_in_box
      rw [if_neg (by decide : ¬("ab" = ""))]
    rw [key, hd]
    rfl

/-- Python exceptions the embedded fragments can produce. -/
inductive PyExc where
  | exception (msg : String)
  | typeError (msg : String)
  | valueError (msg : String)
  | indexError (msg : String)
  | unicodeDecodeError (encoding object reason : String) (first last : ℕ)
deriving DecidableEq, Repr

/-- Python list indexing `l[i]`: raises `IndexError` when out of range. -/
def get_item (l : List ℚ) (i : ℕ) : Except PyExc ℚ :=
  match l.get? i with
  | some v => Except.ok v
  | none => Except.error (PyExc.indexError "list index out of range")

/-- Lower-casing of a character as Python's `str.lower` does on the alphabet
this program can meet: ASCII letters plus the German umlaut capitals. -/
def py_lower_char (ch : Char) : Char :=
  if 'A' ≤ ch ∧ ch ≤ 'Z' then Char.ofNat (ch.toNat + 32)
  else if ch = 'Ä' then 'ä'
  else if ch = 'Ö' then 'ö'
  else if ch = 'Ü' then 'ü'
  else ch

/-- Model of Python's `s.lower()` (restricted alphabet, see `py_lower_char`). -/
def py_lower (s : String) : String := s.map py_lower_char

/-- The fixed template line of the gender rows, identical for the member
fragment (`base_text`, line 293) and the legal-guardian fragment
(`guardian_gender_text`, line 519). -/
def gender_base_text : String := "Geschlecht: O weiblich / O männlich / O divers"

/-- The scan of lines 304-308 / 529-533: walk the template, record the
running x for every capital O, and advance by the measured character width
(`cw ch` abstracts `c.stringWidth(ch, "Helvetica", 10)`). -/
def o_pos_scan (cw : Char → ℚ) : List Char → ℚ → List ℚ
  | [], _ => []
  | ch :: rest, cur => (if ch = 'O' then [cur] else []) ++ o_pos_scan cw rest (cur + cw ch)

/-- The effective gender string of lines 283-287 / 512-516:
`data_dict.get(key, '')`, `None` replaced by the empty string, then lowered.
`none` stands for a missing key or a `None` cell, `some s` for a string. -/
def eff_sex (v : Option String) : String :=
  match v with
  | some s => py_lower s
  | none => ""

/-- Model of the member gender overprint fragment (src/csv_converter.py lines
282-316): when the lowered value is one of the three tokens, overprint an "X"
at the recorded position of the matching capital O, guarded by the length
checks of lines 311-315 (note the `divers` arm checks `len >= 2` but indexes
position 2).  The result is the list of x positions at which an "X" is drawn,
or the Python exception raised. -/
def gender_overprint (cw : Char → ℚ) (base_x : ℚ) (sex_val : Option String) :
    Except PyExc (List ℚ) :=
  let sex := eff_sex sex_val
  if sex = "weiblich" ∨ sex = "männlich" ∨ sex = "divers" then
    let o_positions := o_pos_scan cw gender_base_text.toList base_x
    if sex = "weiblich" then
      if 1 ≤ o_positions.length then (get_item o_positions 0).map (fun p => [p])
      else Except.ok []
    else if sex = "männlich" then
      if 2 ≤ o_positions.length then (get_item o_positions 1).map (fun p => [p])
      else Except.ok []
    else
      if 2 ≤ o_positions.length then (get_item o_positions 2).map (fun p => [p])
      else Except.ok []
  else Except.ok []

/-- Model of the legal-guardian gender overprint fragment
(src/csv_converter.py lines 511-541); identical to `gender_overprint` except
that the `divers` arm checks `len(o_positions) >= 3` (line 540). -/
def applicant_gender_overprint (cw : Char → ℚ) (base_x : ℚ) (sex_val : Option String) :
    Except PyExc (List ℚ) :=
  let sex := eff_sex sex_val
  if sex = "weiblich" ∨ sex = "männlich" ∨ sex = "divers" then
    let o_positions := o_pos_scan cw gender_base_text.toList base_x
    if sex = "weiblich" then
      if 1 ≤ o_positions.length then (get_item o_positions 0).map (fun p => [p])
      else Except.ok []
    else if sex = "männlich" then
      if 2 ≤ o_positions.length then (get_item o_positions 1).map (fun p => [p])
      else Except.ok []
    else
      if 3 ≤ o_positions.length then (get_item o_positions 2).map (fun p => [p])
      else Except.ok []
  else Except.ok []

/-- The x position at which the drawing of the template line starting at
`base_x` places the character with index `i`: `base_x` plus the widths of the
characters before it. -/
def char_x (cw : Char → ℚ) (base_x : ℚ) (i : ℕ) : ℚ :=
  (gender_base_text.toList.take i).foldl (fun acc ch => acc + cw ch) base_x

/-- The template's three capital O characters sit at indices 12 (weiblich),
25 (männlich) and 38 (divers), so the scan yields exactly their positions. -/
theorem o_pos_scan_eq (cw : Char → ℚ) (base_x : ℚ) :
    o_pos_scan cw gender_base_text.data base_x =
      [char_x cw base_x 12, char_x cw base_x 25, char_x cw base_x 38] := rfl

/-- The marker positions the claim predicts (spec side): exactly one "X" over
the capital O of the matching option - index 12 for weiblich, 25 for männlich,
38 for divers - and none for any other value, the empty string and a missing
key included. -/
def spec_gender_marks (cw : Char → ℚ) (base_x : ℚ) (sex_val : Option String) : List ℚ :=
  if eff_sex sex_val = "weiblich" then [char_x cw base_x 12]
  else if eff_sex sex_val = "männlich" then [char_x cw base_x 25]
  else if eff_sex sex_val = "divers" then [char_x cw base_x 38]
  else []

/-- C2 (confirmed): both gender fragments raise no exception and draw exactly
one "X", positioned over the capital O of the option whose token the value
case-insensitively equals, and zero "X" marks for every other value (empty
string and missing key included). -/
theorem gender_overprint_marks (cw : Char → ℚ) (base_x : ℚ) (sex_val : Option String) :
    gender_overprint cw base_x sex_val = Except.ok (spec_gender_marks cw base_x sex_val) ∧
    applicant_gender_overprint cw base_x sex_val =
      Except.ok (spec_gender_marks cw base_x sex_val) := by
  by_cases h1 : eff_sex sex_val = "weiblich"
  · constructor <;>
      simp [gender_overprint, applicant_gender_overprint, spec_gender_marks, h1,
        o_pos_scan_eq, get_item, Except.map]
  · by_cases h2 : eff_sex sex_val = "männlich"
    · constructor <;>
        simp [gender_overprint, applicant_gender_overprint, spec_gender_marks, h1, h2,
          o_pos_scan_eq, get_item, Except.map]
    · by_cases h3 : eff_sex sex_val = "divers"
      · constructor <;>
          simp [gender_overprint, applicant_gender_overprint, spec_gender_marks, h1, h2, h3,
            o_pos_scan_eq, get_item, Except.map]
      · constructor <;>
          simp [gender_overprint, applicant_gender_overprint, spec_gender_marks, h1, h2, h3]

/-- The comprehension `[iban[i:i+4] for i in range(0, len(iban), 4)]`
(src/csv_converter.py line 674): successive blocks of four characters, the
last block possibly shorter. -/
def iban_groups : List Char → List (List Char)
  | [] => []
  | a :: b :: ch :: d :: rest => [a, b, ch, d] :: iban_groups rest
  | l => [l]

/-- Model of `' '.flatten([iban[i:i+4] for i in range(0, len(iban), 4)])`
(src/csv_converter.py line 674). -/
def format_iban (l : List Char) : List Char :=
  (List.intersperse [' '] (iban_groups l)).flatten

/-- Flattening the blocks gives back the input. -/
theorem iban_groups_join : ∀ l : List Char, (iban_groups l).flatten = l
  | [] => rfl
  | [_] => by simp [iban_groups]
  | [_, _] => by simp [iban_groups]
  | [_, _, _] => by simp [iban_groups]
  | a :: b :: ch :: d :: rest => by
      simp [iban_groups, iban_groups_join rest]

/-- Every block holds between one and four characters. -/
theorem iban_groups_len : ∀ l : List Char, ∀ blk ∈ iban_groups l,
    0 < blk.length ∧ blk.length ≤ 4
  | [] => by simp [iban_groups]
  | [_] => by simp [iban_groups]
  | [_, _] => by simp [iban_groups]
  | [_, _, _] => by simp [iban_groups]
  | a :: b :: ch :: d :: rest => by
      intro blk hblk
      rw [show iban_groups (a :: b :: ch :: d :: rest) =
        [a, b, ch, d] :: iban_groups rest from rfl] at hblk
      rcases List.mem_cons.mp hblk with h | h
      · subst h
        exact ⟨by simp, by simp⟩
      · exact iban_groups_len rest blk h

/-- Every block except possibly the last holds exactly four characters. -/
theorem iban_groups_dropLast : ∀ l : List Char, ∀ blk ∈ (iban_groups l).dropLast,
    blk.length = 4
  | [] => by simp [iban_groups]
  | [_] => by simp [iban_groups]
  | [_, _] => by simp [iban_groups]
  | [_, _, _] => by simp [iban_groups]
  | a :: b :: ch :: d :: rest => by
      intro blk hblk
      rw [show iban_groups (a :: b :: ch :: d :: rest) =
        [a, b, ch, d] :: iban_groups rest from rfl] at hblk
      by_cases hr : iban_groups rest = []
      · rw [hr] at hblk
        simp at hblk
      · obtain ⟨g, gs, hg⟩ := List.exists_cons_of_ne_nil hr
        rw [hg, List.dropLast_cons₂] at hblk
        rcases List.mem_cons.mp hblk with h | h
        · subst h
          simp
        · rw [← hg] at h
          exact iban_groups_dropLast rest blk h

/-- C3 (confirmed): the IBAN reformatting step produces the input's characters
grouped into consecutive blocks of four joined by single spaces: the blocks
concatenate back to exactly the input (order and count preserved, nothing
added or removed besides the inserted spaces), all blocks before the last have
length four, and every block has length between one and four. -/
theorem format_iban_blocks (l : List Char) :
    ∃ blocks : List (List Char),
      format_iban l = (List.intersperse [' '] blocks).flatten ∧
      blocks.flatten = l ∧
      (∀ blk ∈ blocks.dropLast, blk.length = 4) ∧
      (∀ blk ∈ blocks, 0 < blk.length ∧ blk.length ≤ 4) :=
  ⟨iban_groups l, rfl, iban_groups_join l, iban_groups_dropLast l, iban_groups_len l⟩

/-- The static rename table `key_mapping` (src/csv_converter.py lines 20-69),
in source order: source column name to canonical field name, `none` for the
dropped system/internal columns. -/
def key_mapping : List (String × Option String) := [
  ("id", none),
  ("sorting", none),
  ("form", none),
  ("date", none),
  ("ip", none),
  ("fd_member", none),
  ("fd_user", none),
  ("fd_member_group", none),
  ("fd_user_group", none),
  ("published", none),
  ("alias", none),
  ("confirmationSent", none),
  ("confirmationDate", none),
  ("be_notes", none),
  ("Angebot", some "goal"),
  ("von", some "from"),
  ("bis", some "to"),
  ("Beitrag", none),
  ("Unterricht", none),
  ("Vorkentnisse", some "previous_knowledge"),
  ("Geschlecht", some "sex"),
  ("Teilnehmer-Name", some "last_name"),
  ("Teilnehmer-Vorname", some "first_name"),
  ("Geburtsdatum", some "birth_date"),
  ("Strasse_Teilnehmer", some "street"),
  ("PLZ_Teilnehmer", some "zip"),
  ("Ort_Teilnehmer", some "city"),
  ("Telefon", some "phone"),
  ("E-Mail", some "email"),
  ("Beruf", some "profession"),
  ("Vereinsmitglied", some "is_member"),
  ("Vereinsmitglied_Mitgliedsnummer", some "member_id"),
  ("Ermaessigung", some "discount"),
  ("Familienmitglied", some "family_member"),
  ("Mitglieder_Haushalt", some "household_members"),
  ("Geschlecht_Antragsteller", some "applicant_sex"),
  ("Name-Antragsteller", some "applicant_last_name"),
  ("Vorname-Antragsteller", some "applicant_first_name"),
  ("Strasse_Antragsteller", some "applicant_street"),
  ("PLZ_Antragsteller", some "applicant_zip"),
  ("Ort_Antragsteller", some "applicant_city"),
  ("check-Sportgesundheit", none),
  ("check-Datenschutz", none),
  ("check-Coronaschutz", none),
  ("Kontoinhaber", some "account_holder"),
  ("Kreditinstitut", some "bank_name"),
  ("IBAN", some "iban"),
  ("BIC", some "bic")]

/-- The rename step of `read_csv_to_dicts_with_validation`
(src/csv_converter.py lines 767-772): a raw row is a partial map from source
column names to cell values; for every table entry with a non-null target the
converted row binds the target to `row.get(original_key, '')`, in table
order.  Entries with a null target, and raw columns not in the table, produce
nothing. -/
def convert_row (row : String → Option String) : List (String × String) :=
  key_mapping.filterMap (fun p => p.2.map (fun tgt => (tgt, (row p.1).getD "")))

/-- The canonical field names: exactly the non-null targets of `key_mapping`,
in table order. -/
def canonical_keys : List String :=
  ["goal", "from", "to", "previous_knowledge", "sex", "last_name", "first_name",
   "birth_date", "street", "zip", "city", "phone", "email", "profession",
   "is_member", "member_id", "discount", "family_member", "household_members",
   "applicant_sex", "applicant_last_name", "applicant_first_name",
   "applicant_street", "applicant_zip", "applicant_city", "account_holder",
   "bank_name", "iban", "bic"]

/-- C4 (confirmed): for every raw row, the converted record's key list is
exactly `canonical_keys` (so every canonical key is present in every record
and nothing else is, whatever raw columns the row carried); and for every
table entry with a non-null target, looking the target up in the converted
record yields the raw cell value when the source column is present, and the
empty string when it is absent. -/
theorem convert_row_keys (row : String → Option String) :
    (convert_row row).map Prod.fst = canonical_keys ∧
    ∀ p ∈ key_mapping, ∀ tgt : String, p.2 = some tgt →
      (∀ v : String, row p.1 = some v →
        List.lookup tgt (convert_row row) = some v) ∧
      (row p.1 = none → List.lookup tgt (convert_row row) = some "") := by
  constructor
  · rfl
  · intro p hp
    have hrow : convert_row row = [
      ("goal", (row "Angebot").getD ""),
      ("from", (row "von").getD ""),
      ("to", (row "bis").getD ""),
      ("previous_knowledge", (row "Vorkentnisse").getD ""),
      ("sex", (row "Geschlecht").getD ""),
      ("last_name", (row "Teilnehmer-Name").getD ""),
      ("first_name", (row "Teilnehmer-Vorname").getD ""),
      ("birth_date", (row "Geburtsdatum").getD ""),
      ("street", (row "Strasse_Teilnehmer").getD ""),
      ("zip", (row "PLZ_Teilnehmer").getD ""),
      ("city", (row "Ort_Teilnehmer").getD ""),
      ("phone", (row "Telefon").getD ""),
      ("email", (row "E-Mail").getD ""),
      ("profession", (row "Beruf").getD ""),
      ("is_member", (row "Vereinsmitglied").getD ""),
      ("member_id", (row "Vereinsmitglied_Mitgliedsnummer").getD ""),
      ("discount", (row "Ermaessigung").getD ""),
      ("family_member", (row "Familienmitglied").getD ""),
      ("household_members", (row "Mitglieder_Haushalt").getD ""),
      ("applicant_sex", (row "Geschlecht_Antragsteller").getD ""),
      ("applicant_last_name", (row "Name-Antragsteller").getD ""),
      ("applicant_first_name", (row "Vorname-Antragsteller").getD ""),
      ("applicant_street", (row "Strasse_Antragsteller").getD ""),
      ("applicant_zip", (row "PLZ_Antragsteller").getD ""),
      ("applicant_city", (row "Ort_Antragsteller").getD ""),
      ("account_holder", (row "Kontoinhaber").getD ""),
      ("bank_name", (row "Kreditinstitut").getD ""),
      ("iban", (row "IBAN").getD ""),
      ("bic", (row "BIC").getD "")] := rfl
    unfold key_mapping at hp
    fin_cases hp <;>
      intro tgt ht <;>
      first
        | exact Option.noConfusion ht
        | (injection ht with h
           subst h
           exact ⟨fun v hv => by rw [hrow, hv]; rfl, fun hn => by rw [hrow, hn]; rfl⟩)

/-- The page-accumulating model of a `reportlab` canvas opened on the output
path: `pages` are the pages already ended by `showPage`, `current` the records
rendered onto the page still open. -/
structure PdfCanvas (α : Type) where
  pages : List (List α)
  current : List α
deriving DecidableEq, Repr

/-- Model of `canvas.Canvas(pdf_path, pagesize=A4)`: a fresh surface. -/
def PdfCanvas.new {α : Type} : PdfCanvas α := ⟨[], []⟩

/-- Model of `generate_pdf_from_dict(row, c)`: the record's rendering is
appended to the open page. -/
def PdfCanvas.draw {α : Type} (c : PdfCanvas α) (r : α) : PdfCanvas α :=
  { c with current := c.current ++ [r] }

/-- Model of `c.showPage()`: end the open page and start a fresh one. -/
def PdfCanvas.showPage {α : Type} (c : PdfCanvas α) : PdfCanvas α :=
  ⟨c.pages ++ [c.current], []⟩

/-- Model of `c.save()`: reportlab executes a final `showPage` when the open
page carries any content, then writes the document; the result is the page
list of the written file. -/
def PdfCanvas.save {α : Type} (c : PdfCanvas α) : List (List α) :=
  if c.current.isEmpty then c.pages else c.pages ++ [c.current]

/-- The `for i, row in enumerate(data_list)` loop of `convert`
(src/csv_converter.py lines 707-713): render each record, and call
`showPage` after it exactly when it is not the last one (`i < n - 1`). -/
def render_all {α : Type} (n : ℕ) : List (ℕ × α) → PdfCanvas α → PdfCanvas α
  | [], c => c
  | (i, r) :: rest, c =>
    render_all n rest (if i < n - 1 then (c.draw r).showPage else c.draw r)

/-- Model of `convert(csv_path, pdf_path)` (src/csv_converter.py lines
685-721) after the reader produced `records`: an empty record list raises
(wrapped by the outer handler) before the canvas for the output path is
created; otherwise a canvas is opened, every record is rendered in order and
the document is saved.  The boolean records whether `canvas.Canvas(pdf_path)`
was ever constructed; the `Except.ok` payload is the page list of the saved
output file, so an `Except.error` result means no output file was written. -/
def convert {α : Type} (records : List α) : Bool × Except PyExc (List (List α)) :=
  if records.isEmpty then
    (false, Except.error (PyExc.exception "Error in conversion process: CSV file contains no data rows"))
  else
    (true, Except.ok (render_all records.length records.enum PdfCanvas.new).save)

/-- Running the loop from index `i` on the remaining records, with an open
empty page and `p` pages already ended, saves `p` followed by one page per
remaining record, in order. -/
theorem render_all_save {α : Type} (n : ℕ) :
    ∀ (rest : List α) (i : ℕ) (p : List (List α)), rest ≠ [] → i + rest.length = n →
      (render_all n (List.enumFrom i rest) ⟨p, []⟩).save = p ++ rest.map (fun r => [r]) := by
  intro rest
  induction rest with
  | nil => intro i p h _; exact absurd rfl h
  | cons r rest ih =>
    intro i p _ hn
    cases rest with
    | nil =>
      have hi : ¬(i < n - 1) := by simp at hn; omega
      show (render_all n [(i, r)] ⟨p, []⟩).save = p ++ [[r]]
      simp only [render_all, if_neg hi]
      simp [PdfCanvas.draw, PdfCanvas.save]
    | cons r2 rest2 =>
      have hi : i < n - 1 := by simp at hn; omega
      have unf : render_all n (List.enumFrom i (r :: r2 :: rest2)) (⟨p, []⟩ : PdfCanvas α) =
          render_all n (List.enumFrom (i + 1) (r2 :: rest2))
            (if i < n - 1 then ((⟨p, []⟩ : PdfCanvas α).draw r).showPage
             else (⟨p, []⟩ : PdfCanvas α).draw r) := rfl
      rw [unf, if_pos hi,
        show ((⟨p, []⟩ : PdfCanvas α).draw r).showPage = (⟨p ++ [[r]], []⟩ : PdfCanvas α) from rfl,
        ih (i + 1) (p ++ [[r]]) (by simp) (by simp at hn ⊢; omega)]
      simp

/-- C5 (confirmed): for every non-empty record list the conversion opens the
output canvas and saves a document with exactly one page per record, the pages
in input order: page `i` holds exactly the rendering of record `i`. -/
theorem convert_page_per_row {α : Type} (records : List α) (h : records ≠ []) :
    convert records = (true, Except.ok (records.map (fun r => [r]))) := by
  unfold convert
  rw [if_neg (by simpa using h)]
  have he : records.enum = List.enumFrom 0 records := rfl
  rw [he, show (PdfCanvas.new : PdfCanvas α) = ⟨[], []⟩ from rfl,
    render_all_save records.length records 0 [] h (by simp)]
  simp

/-- C5 witness: a concrete one-record run produces one page holding that
record. -/
theorem convert_page_per_row_witness :
    convert [0] = (true, Except.ok ([0].map (fun r => [r]))) :=
  convert_page_per_row [0] (by simp)

/-- C6 (confirmed): for a record list that is empty (header-only input), the
conversion stops with the empty-data error, wrapped by the outer handler, and
the canvas for the destination path is never created (first component
`false`), so no output file is produced. -/
theorem convert_empty_data {α : Type} :
    convert ([] : List α) =
      (false, Except.error
        (PyExc.exception "Error in conversion process: CSV file contains no data rows")) := rfl

/-- The Windows-1252 decoding of one byte, as Python's `cp1252` codec performs
it: bytes below 0x80 and from 0xA0 to 0xFF map to the code point of the same
number, the 0x80-0x9F block maps through the Windows-1252 table, and the five
unassigned bytes 0x81, 0x8D, 0x8F, 0x90 and 0x9D have no character: decoding
them raises `UnicodeDecodeError`. -/
def cp1252_char (b : ℕ) : Option Char :=
  if b < 0x80 then some (Char.ofNat b)
  else if b = 0x80 then some (Char.ofNat 0x20AC)
  else if b = 0x82 then some (Char.ofNat 0x201A)
  else if b = 0x83 then some (Char.ofNat 0x0192)
  else if b = 0x84 then some (Char.ofNat 0x201E)
  else if b = 0x85 then some (Char.ofNat 0x2026)
  else if b = 0x86 then some (Char.ofNat 0x2020)
  else if b = 0x87 then some (Char.ofNat 0x2021)
  else if b = 0x88 then some (Char.ofNat 0x02C6)
  else if b = 0x89 then some (Char.ofNat 0x2030)
  else if b = 0x8A then some (Char.ofNat 0x0160)
  else if b = 0x8B then some (Char.ofNat 0x2039)
  else if b = 0x8C then some (Char.ofNat 0x0152)
  else if b = 0x8E then some (Char.ofNat 0x017D)
  else if b = 0x91 then some (Char.ofNat 0x2018)
  else if b = 0x92 then some (Char.ofNat 0x2019)
  else if b = 0x93 then some (Char.ofNat 0x201C)
  else if b = 0x94 then some (Char.ofNat 0x201D)
  else if b = 0x95 then some (Char.ofNat 0x2022)
  else if b = 0x96 then some (Char.ofNat 0x2013)
  else if b = 0x97 then some (Char.ofNat 0x2014)
  else if b = 0x98 then some (Char.ofNat 0x02DC)
  else if b = 0x99 then some (Char.ofNat 0x2122)
  else if b = 0x9A then some (Char.ofNat 0x0161)
  else if b = 0x9B then some (Char.ofNat 0x203A)
  else if b = 0x9C then some (Char.ofNat 0x0153)
  else if b = 0x9E then some (Char.ofNat 0x017E)
  else if b = 0x9F then some (Char.ofNat 0x0178)
  else if b = 0x81 ∨ b = 0x8D ∨ b = 0x8F ∨ b = 0x90 ∨ b = 0x9D then none
  else if b ≤ 0xFF then some (Char.ofNat b)
  else none

/-- Decoding a byte sequence with the fixed `windows-1252` encoding: `none`
when any byte is invalid under that encoding. -/
def decode_cp1252 (bytes : List ℕ) : Option (List Char) := bytes.mapM cp1252_char

/-- Python's `UnicodeDecodeError.__new__`: the constructor requires exactly
five arguments (encoding, object, start, end, reason); called with any other
number of arguments, CPython itself raises
`TypeError: function takes exactly 5 arguments (n given)`.  Arguments are
modelled as strings, which suffices for the one-argument call the code
makes. -/
def py_unicode_decode_error_new (args : List String) : Except PyExc PyExc :=
  if args.length = 5 then
    Except.ok (PyExc.unicodeDecodeError (args.getD 0 "") (args.getD 1 "") (args.getD 4 "") 0 0)
  else
    Except.error (PyExc.typeError
      ("function takes exactly 5 arguments (" ++ toString args.length ++ " given)"))

/-- The `except UnicodeDecodeError` handler of
`read_csv_to_dicts_with_validation` (src/csv_converter.py lines 778-779): it
evaluates `UnicodeDecodeError(f"Failed to decode file ... ")` with a single
message argument.  If that construction itself raises, the raised exception
(not a `UnicodeDecodeError`) escapes the handler. -/
def reraise_decode_error (filename : String) : PyExc :=
  match py_unicode_decode_error_new
      ["Failed to decode file " ++ filename ++ " with Windows 1252 encoding"] with
  | Except.ok exc => exc
  | Except.error raised => raised

/-- The decode step of the reader (src/csv_converter.py line 744 with the
handler of lines 778-779): decode the file bytes as `windows-1252`; on an
invalid byte the codec raises `UnicodeDecodeError`, the handler runs, and its
result escapes.  All of this happens before any output is produced. -/
def read_csv_decode (filename : String) (bytes : List ℕ) : Except PyExc (List Char) :=
  match decode_cp1252 bytes with
  | some cs => Except.ok cs
  | none => Except.error (reraise_decode_error filename)

/-- C7 (code bug): byte 0x81 is invalid under Windows-1252, so the reader
enters the `except UnicodeDecodeError` handler; but the handler's own
`UnicodeDecodeError(msg)` call passes one argument to a five-argument
constructor, so the exception that actually escapes is a `TypeError`, not the
re-raised `UnicodeDecodeError` carrying the filename that the docstring and
the claim promise. -/
theorem decode_error_reraise_is_type_error :
    decode_cp1252 [0x81] = none ∧
    read_csv_decode "input.csv" [0x81] =
      Except.error (PyExc.typeError "function takes exactly 5 arguments (1 given)") :=
  ⟨rfl, rfl⟩

/-- The whole-file rename loop of `read_csv_to_dicts_with_validation`
(src/csv_converter.py lines 766-772): every parsed row is converted, none is
filtered out. -/
def convert_all_rows (rows : List (String → Option String)) : List (List (String × String)) :=
  rows.map convert_row

/-- Model of Python's `value.strip()`: remove leading and trailing
whitespace. -/
def py_strip (s : String) : String :=
  String.mk (((s.data.dropWhile Char.isWhitespace).reverse.dropWhile Char.isWhitespace).reverse)

/-- The blank-row test of `Converter._read_excel_data`
(src/converter.py line 152): a row is kept when
`any(value.strip() for value in row_data.values())` holds, i.e. when some
stripped value is non-empty. -/
def row_has_data (row : List (String × String)) : Bool :=
  row.any (fun p => !(py_strip p.2 == ""))

/-- The row filter of `Converter._read_excel_data` (src/converter.py lines
151-153): only rows with some non-blank value are appended. -/
def read_excel_rows (rows : List (List (String × String))) : List (List (String × String)) :=
  rows.filter row_has_data

/-- C8 (confirmed): the CSV reader emits one converted record per parsed data
row, with no filtering, even when every target field is empty; the Excel
reader keeps only rows with some non-blank value; for the same logical row set
- here a single all-blank row - the CSV path yields one record and the Excel
path yields zero. -/
theorem reader_filtering_divergence :
    (∀ rows : List (String → Option String), (convert_all_rows rows).length = rows.length) ∧
    (∀ rows : List (List (String × String)), ∀ r ∈ read_excel_rows rows, row_has_data r = true) ∧
    ((convert_all_rows [fun _ => some ""]).length = 1 ∧
      (read_excel_rows [[("Teilnehmer-Name", " ")]]).length = 0) := by
  refine ⟨fun rows => List.length_map rows _, fun rows r hr => ?_, rfl, ?_⟩
  · exact (List.mem_filter.mp hr).2
  · rfl

/-- C8 witness: the filter property applied at a concrete kept row. -/
theorem reader_filtering_divergence_witness :
    row_has_data [("Teilnehmer-Name", "Muster")] = true :=
  reader_filtering_divergence.2.1 [[("Teilnehmer-Name", "Muster")]]
    [("Teilnehmer-Name", "Muster")] (by decide)

/-- The member name line (src/csv_converter.py line 346):
`f"{last_name}, {first_name}"` when both components are truthy, plain
concatenation otherwise. -/
def name_text (last_name first_name : String) : String :=
  if last_name ≠ "" ∧ first_name ≠ "" then last_name ++ ", " ++ first_name
  else last_name ++ first_name

/-- The legal-guardian name line (src/csv_converter.py line 562), built by
the same rule from the applicant fields. -/
def applicant_name_text (last_name first_name : String) : String :=
  if last_name ≠ "" ∧ first_name ≠ "" then last_name ++ ", " ++ first_name
  else last_name ++ first_name

/-- C10 (confirmed): the name line uses the comma-and-space separator exactly
when both components are non-empty; when either is empty the two values are
concatenated directly, so a record with exactly one component present renders
that component alone, with no stray comma; the applicant name line follows the
same rule. -/
theorem name_line_composition (last_name first_name : String) :
    (last_name ≠ "" → first_name ≠ "" →
      name_text last_name first_name = last_name ++ ", " ++ first_name ∧
      applicant_name_text last_name first_name = last_name ++ ", " ++ first_name) ∧
    (first_name = "" →
      name_text last_name first_name = last_name ∧
      applicant_name_text last_name first_name = last_name) ∧
    (last_name = "" →
      name_text last_name first_name = first_name ∧
      applicant_name_text last_name first_name = first_name) := by
  refine ⟨fun h1 h2 => ?_, fun h2 => ?_, fun h1 => ?_⟩
  · constructor <;> simp [name_text, applicant_name_text, h1, h2]
  · subst h2
    constructor <;> simp [name_text, applicant_name_text]
  · subst h1
    constructor <;> simp [name_text, applicant_name_text]
